import Mathlib

/-!
Shallow embedding of `src/service_b/web_app/views.py` (the single source file
of the repository): a Django view `home_view` that fetches JSON from an
upstream service and renders it, with a fallback on request failures.

The Python code:

  def home_view(request):
      service_a_host = os.environ.get('SERVICE_A_HOST', 'service-a')
      service_a_url = f'http://\x7bservice_a_host\x7d:8000/api/data/'
      try:
          response = requests.get(service_a_url, timeout=5)
          response.raise_for_status()
          data = response.json()
      except requests.exceptions.RequestException as e:
          logger.error(f"Error connecting to Service A: \x7be\x7d")
          data = \x7b'items': []\x7d
      return render(request, 'home.html', \x7b'data': data\x7d)

Network and upstream behaviour are nondeterministic inputs to the handler, so
the embedding passes them in explicitly: the environment as an association
list, and the outcome of the single `requests.get` call as a `FetchOutcome`.
The response body is modelled by its JSON-parse outcome (`some j` when
`response.json()` decodes the body to `j`, `none` when decoding raises).
-/

namespace ServiceB

/-- JSON values, as produced by decoding an upstream response body.
Numbers are modelled as integers; none of the handler's behaviour inspects
numeric values. -/
inductive Json where
  | null : Json
  | bool (b : Bool) : Json
  | num (n : Int) : Json
  | str (s : String) : Json
  | arr (elems : List Json) : Json
  | obj (fields : List (String × Json)) : Json
deriving Repr

/-- Whether a JSON value is an object that carries the given key.
Used only to state properties; the handler itself never inspects shapes. -/
def Json.hasKey : Json → String → Bool
  | .obj fields, k => (fields.lookup k).isSome
  | _, _ => false

/-- An upstream HTTP response as delivered by `requests.get` (after the
library's internal redirect handling).  The body is modelled by its
JSON-parse outcome: `jsonBody = some j` when `response.json()` would decode
the body to `j`, and `jsonBody = none` when the body is not valid JSON, in
which case `response.json()` raises. -/
structure Response where
  status_code : Nat
  jsonBody : Option Json
deriving Repr

/-- The possible outcomes of the single `requests.get(url, timeout=5)` call:
a response is delivered, or the library raises a connection-level error
(connection refused, DNS failure, unreachable host), or the 5-second timeout
expires and the library raises a timeout error. -/
inductive FetchOutcome where
  | ok (resp : Response) : FetchOutcome
  | connectionError : FetchOutcome
  | timeout : FetchOutcome
deriving Repr

/-- The Python exceptions that can arise inside the `try` block:
`requests.exceptions.ConnectionError`, `requests.exceptions.Timeout`
(from `requests.get`), `requests.exceptions.HTTPError` (from
`raise_for_status`), and `requests.exceptions.JSONDecodeError` (from
`response.json()` on an undecodable body). -/
inductive PyExc where
  | connectionError : PyExc
  | timeout : PyExc
  | httpError (status : Nat) : PyExc
  | jsonDecodeError : PyExc
deriving Repr, DecidableEq

/-- Whether an exception is caught by `except requests.exceptions.RequestException`.
Per the class hierarchy of `requests/exceptions.py`: `ConnectionError`,
`Timeout` and `HTTPError` subclass `RequestException` directly, and
`JSONDecodeError` subclasses `InvalidJSONError` which subclasses
`RequestException` (requests >= 2.27, where `Response.json` raises
`requests.exceptions.JSONDecodeError`).  So every exception reachable in
this `try` block is a `RequestException`. -/
def PyExc.isRequestException : PyExc → Bool
  | .connectionError => true
  | .timeout => true
  | .httpError _ => true
  | .jsonDecodeError => true

/-- Human-readable description of the exception, standing in for Python's
`str(e)`; the exact text is produced inside the requests library and only
its presence matters to the handler's observable behaviour. -/
def PyExc.descr : PyExc → String
  | .connectionError => "Connection error"
  | .timeout => "Request timed out"
  | .httpError _ => "HTTP error for url"
  | .jsonDecodeError => "Expecting value"

/-- Model of `os.environ.get(key, default)`: the stored value when the key
is present in the environment (even if it is the empty string), otherwise
the default. -/
def envGet (env : List (String × String)) (key dflt : String) : String :=
  match env.lookup key with
  | some v => v
  | none => dflt

/-- Line 9: `service_a_host = os.environ.get('SERVICE_A_HOST', 'service-a')`. -/
def service_a_host (env : List (String × String)) : String :=
  envGet env "SERVICE_A_HOST" "service-a"

/-- Line 10: the f-string `http://...:8000/api/data/` around the host. -/
def service_a_url (env : List (String × String)) : String :=
  "http://" ++ service_a_host env ++ ":8000/api/data/"

/-- Model of `requests.get(url, timeout=5)`: delivers the response or raises
a connection-level or timeout exception, according to the fetch outcome. -/
def requests_get (outcome : FetchOutcome) : Except PyExc Response :=
  match outcome with
  | .ok resp => .ok resp
  | .connectionError => .error .connectionError
  | .timeout => .error .timeout

/-- Model of `Response.raise_for_status` from the requests library: raises
`HTTPError` exactly for client-error (4xx) and server-error (5xx) status
codes, i.e. when `400 <= status_code < 600`, and is a no-op otherwise. -/
def raise_for_status (resp : Response) : Except PyExc Unit :=
  if 400 ≤ resp.status_code ∧ resp.status_code < 600 then
    .error (.httpError resp.status_code)
  else
    .ok ()

/-- Model of `response.json()`: the decoded value when the body is valid
JSON, otherwise raises `requests.exceptions.JSONDecodeError`. -/
def Response.json (resp : Response) : Except PyExc Json :=
  match resp.jsonBody with
  | some j => .ok j
  | none => .error .jsonDecodeError

/-- Lines 12 to 14, the body of the `try` block: fetch, validate the status,
parse.  Any raised exception short-circuits to `.error`. -/
def tryFetchParse (outcome : FetchOutcome) : Except PyExc Json :=
  match requests_get outcome with
  | .error e => .error e
  | .ok response =>
    match raise_for_status response with
    | .error e => .error e
    | .ok _ => response.json

/-- Line 17: the fallback payload `\x7b'items': []\x7d`. -/
def fallbackData : Json := Json.obj [("items", Json.arr [])]

/-- A log record as emitted through `logger.error(...)`. -/
structure LogRecord where
  level : String
  message : String
deriving Repr, DecidableEq

/-- An outbound HTTP GET request as issued by `requests.get`. -/
structure GetRequest where
  url : String
  timeout : Nat
deriving Repr, DecidableEq

/-- A call to `render(request, template, context)`; the context is the
dictionary passed as the third argument. -/
structure Render where
  template : String
  context : List (String × Json)
deriving Repr

/-- Everything observable about one invocation of the handler: the returned
render (or, had an exception escaped the `except` clause, that exception),
the log records emitted, and the outbound GET requests issued. -/
structure HandlerRun where
  result : Except PyExc Render
  logs : List LogRecord
  requests : List GetRequest
deriving Repr

/-- Lines 8 to 18: the view `home_view`.  The inbound Django `request`
object is only forwarded to `render` and never inspected, so it is not a
parameter of the model; the environment and the outcome of the single
network call are. -/
def home_view (env : List (String × String)) (outcome : FetchOutcome) : HandlerRun :=
  match tryFetchParse outcome with
  | .ok data =>
      { result := .ok { template := "home.html", context := [("data", data)] }
        logs := []
        requests := [{ url := service_a_url env, timeout := 5 }] }
  | .error e =>
      if e.isRequestException then
        { result := .ok { template := "home.html", context := [("data", fallbackData)] }
          logs := [{ level := "ERROR"
                     message := "Error connecting to Service A: " ++ e.descr }]
          requests := [{ url := service_a_url env, timeout := 5 }] }
      else
        { result := .error e
          logs := []
          requests := [{ url := service_a_url env, timeout := 5 }] }

/-- Whether the handler run returned normally (no exception escaped). -/
def HandlerRun.returnedNormally (run : HandlerRun) : Bool :=
  match run.result with
  | .ok _ => true
  | .error _ => false

/-- Every exception reachable in this handler's `try` block belongs to the
`RequestException` family, so the `except` clause catches all of them. -/
theorem PyExc.isRequestException_true (e : PyExc) : e.isRequestException = true := by
  cases e <;> rfl

/-- C1: for every upstream response with a 2xx HTTP status and a body that
parses as JSON, the rendered template context binds the key `data` to
exactly the parsed body, unchanged. -/
theorem home_view_success_passthrough (env : List (String × String))
    (resp : Response) (j : Json)
    (h2xx : 200 ≤ resp.status_code ∧ resp.status_code < 300)
    (hbody : resp.jsonBody = some j) :
    (home_view env (.ok resp)).result =
      .ok { template := "home.html", context := [("data", j)] } := by
  have hns : ¬ (400 ≤ resp.status_code ∧ resp.status_code < 600) := by omega
  simp [home_view, tryFetchParse, requests_get, raise_for_status, hns,
    Response.json, hbody]

/-- Witness for C1: status 200 with body decoding to
an object holding items ["a", "b"] renders with that exact object. -/
theorem home_view_success_passthrough_witness :
    (home_view [] (.ok ⟨200, some (Json.obj [("items", Json.arr [Json.str "a", Json.str "b"])])⟩)).result =
      .ok { template := "home.html"
            context := [("data", Json.obj [("items", Json.arr [Json.str "a", Json.str "b"])])] } :=
  home_view_success_passthrough [] _ _ (by decide) rfl

/-- C2: on every failed fetch (connection error, timeout, or error HTTP
status) the rendered context binds `data` to exactly the fallback payload
and exactly one error-severity log record is emitted; on a successful
fetch, validate and parse, no log record is emitted. -/
theorem home_view_failure_fallback_and_log (env : List (String × String))
    (outcome : FetchOutcome) :
    ((outcome = .connectionError ∨ outcome = .timeout ∨
        (∃ resp, outcome = .ok resp ∧
          400 ≤ resp.status_code ∧ resp.status_code < 600)) →
      (home_view env outcome).result =
        .ok { template := "home.html", context := [("data", fallbackData)] } ∧
      (home_view env outcome).logs.length = 1 ∧
      ∀ l ∈ (home_view env outcome).logs, l.level = "ERROR")
    ∧ (∀ resp j, outcome = .ok resp →
        ¬ (400 ≤ resp.status_code ∧ resp.status_code < 600) →
        resp.jsonBody = some j →
        (home_view env outcome).logs = []) := by
  constructor
  · rintro (rfl | rfl | ⟨resp, rfl, hs⟩)
    · simp [home_view, tryFetchParse, requests_get, PyExc.isRequestException]
    · simp [home_view, tryFetchParse, requests_get, PyExc.isRequestException]
    · simp [home_view, tryFetchParse, requests_get, raise_for_status, hs,
        PyExc.isRequestException]
  · rintro resp j rfl hns hbody
    simp [home_view, tryFetchParse, requests_get, raise_for_status, hns,
      Response.json, hbody]

/-- Witness for C2: a connection error yields the fallback payload and one
error log, and a clean 200 with a parseable body yields no log. -/
theorem home_view_failure_fallback_and_log_witness :
    ((home_view [] .connectionError).result =
        .ok { template := "home.html", context := [("data", fallbackData)] } ∧
      (home_view [] .connectionError).logs.length = 1)
    ∧ (home_view [] (.ok ⟨200, some Json.null⟩)).logs = [] :=
  ⟨⟨((home_view_failure_fallback_and_log [] .connectionError).1 (Or.inl rfl)).1,
    ((home_view_failure_fallback_and_log [] .connectionError).1 (Or.inl rfl)).2.1⟩,
    (home_view_failure_fallback_and_log [] (.ok ⟨200, some Json.null⟩)).2
      _ Json.null rfl (by decide) rfl⟩

/-- C3: for every environment and every outcome of the fetch, validate and
parse steps, the handler returns a normally rendered response; no exception
escapes to the caller. -/
theorem home_view_never_raises (env : List (String × String))
    (outcome : FetchOutcome) :
    (home_view env outcome).returnedNormally = true := by
  unfold home_view
  cases tryFetchParse outcome with
  | ok d => rfl
  | error e => simp [PyExc.isRequestException_true e, HandlerRun.returnedNormally]

/-- C4: the computed upstream URL is `http://` plus the value of
`SERVICE_A_HOST` plus `:8000/api/data/` whenever the variable is set, the
default `http://service-a:8000/api/data/` when it is unset, and in
particular `http://alt-host:8000/api/data/` for `SERVICE_A_HOST=alt-host`. -/
theorem service_a_url_resolution (env : List (String × String)) :
    (∀ h, env.lookup "SERVICE_A_HOST" = some h →
        service_a_url env = "http://" ++ h ++ ":8000/api/data/")
    ∧ (env.lookup "SERVICE_A_HOST" = none →
        service_a_url env = "http://service-a:8000/api/data/")
    ∧ service_a_url [("SERVICE_A_HOST", "alt-host")] = "http://alt-host:8000/api/data/" := by
  refine ⟨?_, ?_, rfl⟩
  · intro h hl
    simp [service_a_url, service_a_host, envGet, hl]
  · intro hl
    simp [service_a_url, service_a_host, envGet, hl]

/-- Witness for C4: a concrete set host resolves into the URL template. -/
theorem service_a_url_resolution_witness :
    service_a_url [("SERVICE_A_HOST", "example-host")] =
      "http://" ++ "example-host" ++ ":8000/api/data/" :=
  (service_a_url_resolution [("SERVICE_A_HOST", "example-host")]).1 "example-host" rfl

/-- Counterexample to C5: a response with status 304 (not 2xx) whose body
decodes to the empty object does NOT take the failure path:
`raise_for_status` raises only for 4xx and 5xx, so the handler renders the
parsed body (which differs from the fallback payload) and logs nothing. -/
theorem status_304_skips_failure_path :
    ¬ (200 ≤ (304 : Nat) ∧ (304 : Nat) < 300)
    ∧ (home_view [] (.ok ⟨304, some (Json.obj [])⟩)).result =
        .ok { template := "home.html", context := [("data", Json.obj [])] }
    ∧ Json.obj [] ≠ fallbackData
    ∧ (home_view [] (.ok ⟨304, some (Json.obj [])⟩)).logs = [] := by
  refine ⟨by decide, rfl, ?_, rfl⟩
  intro h
  simp [fallbackData] at h

/-- C5 as amended: `raise_for_status` raises exactly on 4xx and 5xx, so for
every upstream response whose status lies in 400..599 the handler takes the
failure path and substitutes the fallback payload (a non-2xx status outside
that range, such as 304, instead takes the success path). -/
theorem home_view_4xx_5xx_fallback (env : List (String × String))
    (resp : Response)
    (hs : 400 ≤ resp.status_code ∧ resp.status_code < 600) :
    (home_view env (.ok resp)).result =
      .ok { template := "home.html", context := [("data", fallbackData)] } ∧
    (home_view env (.ok resp)).logs.length = 1 := by
  simp [home_view, tryFetchParse, requests_get, raise_for_status, hs,
    PyExc.isRequestException]

/-- Witness for the amended C5: an upstream 500 yields the fallback payload
and one log record. -/
theorem home_view_4xx_5xx_fallback_witness :
    (home_view [] (.ok ⟨500, some Json.null⟩)).result =
      .ok { template := "home.html", context := [("data", fallbackData)] } ∧
    (home_view [] (.ok ⟨500, some Json.null⟩)).logs.length = 1 :=
  home_view_4xx_5xx_fallback [] ⟨500, some Json.null⟩ (by decide)

/-- Counterexample to C6: on a 200 response whose body is not valid JSON the
handler does NOT propagate the parsing fault.  `response.json()` raises
`requests.exceptions.JSONDecodeError`, which subclasses `RequestException`
(requests >= 2.27), so the `except` clause catches it: the handler returns
normally with the fallback payload and one error log. -/
theorem malformed_body_does_not_propagate :
    (home_view [] (.ok ⟨200, none⟩)).returnedNormally = true
    ∧ (home_view [] (.ok ⟨200, none⟩)).result =
        .ok { template := "home.html", context := [("data", fallbackData)] }
    ∧ (home_view [] (.ok ⟨200, none⟩)).logs.length = 1 :=
  ⟨rfl, rfl, rfl⟩

/-- C6 as amended: the catch clause also covers the parsing fault, because
`response.json()` raises `requests.exceptions.JSONDecodeError`, a subclass
of `RequestException`; hence for every 2xx response whose body is not valid
JSON the handler substitutes the fallback payload, emits one error log, and
does not propagate. -/
theorem home_view_malformed_body_fallback (env : List (String × String))
    (resp : Response)
    (h2xx : 200 ≤ resp.status_code ∧ resp.status_code < 300)
    (hbody : resp.jsonBody = none) :
    (home_view env (.ok resp)).result =
      .ok { template := "home.html", context := [("data", fallbackData)] } ∧
    (home_view env (.ok resp)).logs.length = 1 := by
  have hns : ¬ (400 ≤ resp.status_code ∧ resp.status_code < 600) := by omega
  simp [home_view, tryFetchParse, requests_get, raise_for_status, hns,
    Response.json, hbody, PyExc.isRequestException]

/-- Witness for the amended C6: a concrete 200 response with an undecodable
body yields the fallback payload and one log record. -/
theorem home_view_malformed_body_fallback_witness :
    (home_view [] (.ok ⟨200, none⟩)).result =
      .ok { template := "home.html", context := [("data", fallbackData)] } ∧
    (home_view [] (.ok ⟨200, none⟩)).logs.length = 1 :=
  home_view_malformed_body_fallback [] ⟨200, none⟩ (by decide) rfl

/-- C7: every invocation issues exactly one GET request, to the resolved
upstream URL, with a timeout argument of 5 seconds, whatever the outcome
(in particular no retry happens after a failure). -/
theorem home_view_single_get (env : List (String × String))
    (outcome : FetchOutcome) :
    (home_view env outcome).requests = [{ url := service_a_url env, timeout := 5 }] := by
  unfold home_view
  cases tryFetchParse outcome with
  | ok d => rfl
  | error e => simp [PyExc.isRequestException_true e]

/-- C8: the handler is deterministic and stateless: two invocations seeing
the same value for the `SERVICE_A_HOST` environment variable (other
environment entries may differ) and the same upstream outcome produce
identical runs, rendered output included. -/
theorem home_view_deterministic (env env' : List (String × String))
    (outcome : FetchOutcome)
    (henv : envGet env "SERVICE_A_HOST" "service-a" =
      envGet env' "SERVICE_A_HOST" "service-a") :
    home_view env outcome = home_view env' outcome := by
  have hurl : service_a_url env = service_a_url env' := by
    simp [service_a_url, service_a_host, henv]
  unfold home_view
  rw [hurl]

/-- Witness for C8: an unrelated environment entry does not affect the run. -/
theorem home_view_deterministic_witness :
    home_view [("PATH", "/usr/bin")] .timeout = home_view [] .timeout :=
  home_view_deterministic [("PATH", "/usr/bin")] [] .timeout rfl

/-- C9: the default host applies only when `SERVICE_A_HOST` is absent; when
it is present with the empty-string value, the computed URL is exactly
`http://:8000/api/data/`, which differs from the default URL. -/
theorem service_a_url_empty_host (env : List (String × String))
    (h : env.lookup "SERVICE_A_HOST" = some "") :
    service_a_url env = "http://:8000/api/data/" ∧
    service_a_url env ≠ "http://service-a:8000/api/data/" := by
  have hurl : service_a_url env = "http://:8000/api/data/" := by
    simp [service_a_url, service_a_host, envGet, h]
  refine ⟨hurl, ?_⟩
  rw [hurl]
  decide

/-- Witness for C9: the concrete environment mapping `SERVICE_A_HOST` to the
empty string yields the degenerate URL. -/
theorem service_a_url_empty_host_witness :
    service_a_url [("SERVICE_A_HOST", "")] = "http://:8000/api/data/" :=
  (service_a_url_empty_host [("SERVICE_A_HOST", "")] rfl).1

/-- C10: the success path performs no shape validation: a 2xx response whose
body decodes to any JSON value without an "items" key (in particular a
non-object such as an array, string or number) is still passed through to
the template context unchanged. -/
theorem home_view_no_shape_validation (env : List (String × String))
    (resp : Response) (j : Json)
    (h2xx : 200 ≤ resp.status_code ∧ resp.status_code < 300)
    (hbody : resp.jsonBody = some j)
    (_hshape : j.hasKey "items" = false) :
    (home_view env (.ok resp)).result =
      .ok { template := "home.html", context := [("data", j)] } := by
  have hns : ¬ (400 ≤ resp.status_code ∧ resp.status_code < 600) := by omega
  simp [home_view, tryFetchParse, requests_get, raise_for_status, hns,
    Response.json, hbody]

/-- Witness for C10: a 200 response decoding to the bare number 5 renders
with `data` bound to that number. -/
theorem home_view_no_shape_validation_witness :
    (home_view [] (.ok ⟨201, some (Json.num 5)⟩)).result =
      .ok { template := "home.html", context := [("data", Json.num 5)] } :=
  home_view_no_shape_validation [] ⟨201, some (Json.num 5)⟩ (Json.num 5)
    (by decide) rfl rfl

end ServiceB
